/-
Verification of the tox-pdm plugin (src/tox_pdm/plugin3.py) against its
natural-language specification.

The plugin is a set of hook callbacks for the tox 3 host runner that delegate
dependency installation and package building to the external `pdm` tool.  We
embed each hook as a pure Lean function: subprocess invocations, file copies
and reporter messages become an explicit `Effect` trace, Python exceptions
become `Except PyError`, and the mutable state a hook touches (the class-level
command-path resolver, `envconfig.groups`, the command lists) is passed and
returned explicitly.  Filesystem reads the code performs (the `*.tar.gz` glob,
the listing of the `bin` directory) are supplied as explicit inputs.
-/
import Mathlib

namespace ToxPdm

/-- Python exceptions that the plugin can let propagate. -/
inductive PyError where
  /-- Python `TypeError`, e.g. from unpacking `None` into a 2-tuple. -/
  | typeError
  /-- Python `StopIteration`, from `next` on an exhausted iterator. -/
  | stopIteration
  deriving DecidableEq, Repr

/-- Observable side effects performed by the hooks, in order. -/
inductive Effect where
  /-- Call `reporter.info(msg)` — informational message, not an error. -/
  | info (msg : String)
  /-- Call `clone_pdm_files(dst, src)` — copies the manifest and lock file into the
  environment directory (a filesystem write). -/
  | clonePdmFiles (dst src : String)
  /-- Call `ensure_empty_dir(dir)` — clears/creates the directory (a filesystem
  write). -/
  | ensureEmptyDir (dir : String)
  /-- Call `venv._pcall(args, cwd=cwd, ...)` — subprocess invocation. -/
  | pcall (args : List String) (cwd : String)
  /-- Call `hold_lock(file, ...)` — acquire the exclusive build lock. -/
  | acquireLock (file : String)
  /-- Call `action.setactivity(name, value)` — progress reporting. -/
  | setActivity (name value : String)
  /-- Call `create_session_view(package, temp_dir)` — host-runner session view. -/
  | createSessionView (pkg : String)
  /-- Call `shutil.move(src, dst)` — move a file (a filesystem write). -/
  | moveFile (src dst : String)
  deriving DecidableEq, Repr

/-- Which effects write to the filesystem. -/
def Effect.isFsWrite : Effect → Bool
  | .clonePdmFiles _ _ => true
  | .ensureEmptyDir _ => true
  | .moveFile _ _ => true
  | _ => false

/-- Python `os.path.join` on two components (POSIX flavour suffices here). -/
def pathJoin (a b : String) : String := a ++ "/" ++ b

/-- The slice of `session.config` the hooks read. -/
structure Config where
  /-- Field `config.skipsdist`. -/
  skipsdist : Bool
  /-- Field `config.toxworkdir`. -/
  toxworkdir : String
  /-- Field `config.isolated_build_env`. -/
  isolated_build_env : String
  /-- Field `config.toxinidir` — the project root. -/
  toxinidir : String
  /-- Field `config.option.pdm` — the external tool executable. -/
  pdm : String
  deriving DecidableEq, Repr

/-- The slice of `venv` / `venv.envconfig` the hooks read.  `groups` is the
`groups` testenv attribute, a line-list: `none` models the attribute being
unset (Python `None`). -/
structure Venv where
  /-- Field `venv.path`. -/
  path : String
  /-- Result of `venv.getsupportedinterpreter()`. -/
  interpreter : String
  /-- Field `venv.envconfig.groups`. -/
  groups : Option (List String)
  /-- Field `venv.envconfig.skip_install`. -/
  skip_install : Bool
  deriving DecidableEq, Repr

/-- Python `venv.envconfig.groups or []`: `None` and the empty list are both
falsy, so either yields `[]`. -/
def groupsOrEmpty : Option (List String) → List String
  | none => []
  | some gs => gs

/- ------------------------------------------------------------------ -/
/- tox_testenv_create (plugin3.py lines 33-55)                         -/
/- ------------------------------------------------------------------ -/

/-- The class-level state the create hook mutates: the
`VirtualEnv.getcommandpath` resolver, mapping a command name to a path. -/
structure ResolverState where
  getcommandpath : String → String

/-- Function `patch_getcommandpath` (plugin3.py lines 38-45): wraps a resolver so that
`"python"` resolves to the configured interpreter and everything else falls
through to the wrapped resolver. -/
def patch_getcommandpath (config_interpreter : String) (orig : String → String) :
    String → String :=
  fun cmd => if cmd = "python" then config_interpreter else orig cmd

/-- Hook `tox_testenv_create` (plugin3.py lines 33-55): clones the pdm files,
reassigns `VirtualEnv.getcommandpath` to the patched resolver (a plain class
attribute assignment — nothing un-patches it afterwards), invokes
`pdm use -f <interpreter>` in the environment directory, and returns `True`.
Result: (new resolver state, effect trace, hook return value). -/
def tox_testenv_create (cfg : Config) (venv : Venv) (st : ResolverState) :
    ResolverState × List Effect × Bool :=
  (⟨patch_getcommandpath venv.interpreter st.getcommandpath⟩,
   [Effect.clonePdmFiles venv.path cfg.toxinidir,
    Effect.pcall [cfg.pdm, "use", "-f", venv.interpreter] venv.path],
   true)

/- ------------------------------------------------------------------ -/
/- acquire_package / get_package (plugin3.py lines 58-92)              -/
/- ------------------------------------------------------------------ -/

/-- Function `acquire_package` (plugin3.py lines 75-92).  `globResults` is the sequence
of files `target_dir.visit("*.tar.gz")` yields after the build subprocess
finished; `next` on it returns the first element or raises `StopIteration`. -/
def acquire_package (cfg : Config) (venv : Venv) (st : ResolverState)
    (globResults : List String) : Except PyError String × List Effect :=
  let target_dir := pathJoin cfg.toxworkdir cfg.isolated_build_env
  let (_, createEffs, _) := tox_testenv_create cfg venv st
  let effs :=
    Effect.ensureEmptyDir target_dir :: createEffs ++
      [Effect.pcall [cfg.pdm, "build", "--no-wheel", "-d", target_dir]
        cfg.toxinidir]
  match globResults with
  | [] => (.error .stopIteration, effs)
  | path :: _ => (.ok path, effs ++ [Effect.setActivity "buildpkg" path])

/-- Function `get_package` (plugin3.py lines 58-72).  When `config.skipsdist` is set it
reports an informational skip and returns `None`; otherwise it takes the build
lock and builds.  The session view produced by the host runner's
`create_session_view` (tox code, outside this repository) is modelled as the
package path itself; no claim inspects its value. -/
def get_package (cfg : Config) (venv : Venv) (st : ResolverState)
    (globResults : List String) :
    Except PyError (Option (String × String)) × List Effect :=
  if cfg.skipsdist then
    (.ok none, [Effect.info "skipping sdist step"])
  else
    let lock_file := pathJoin cfg.toxworkdir (cfg.isolated_build_env ++ ".lock")
    let (r, effs) := acquire_package cfg venv st globResults
    match r with
    | .error e => (.error e, Effect.acquireLock lock_file :: effs)
    | .ok package =>
        (.ok (some (package, package)),
         Effect.acquireLock lock_file :: effs ++
           [Effect.createSessionView package])

/- ------------------------------------------------------------------ -/
/- tox_package (plugin3.py lines 95-107)                               -/
/- ------------------------------------------------------------------ -/

/-- Python tuple unpacking `a, b = v`: unpacking `None` raises `TypeError`
("cannot unpack non-iterable NoneType object"). -/
def tuple_unpack2 : Option (String × String) → Except PyError (String × String)
  | none => .error .typeError
  | some p => .ok p

/-- Replace every `"python"` token by the interpreter path (the
`for i, arg in enumerate(...)` rewrite loops at plugin3.py lines 101-103 and
164-167). -/
def rewritePython (interpreter : String) (cmd : List String) : List String :=
  cmd.map fun arg => if arg = "python" then interpreter else arg

/-- The command-list rewrite of `tox_package` (plugin3.py lines 100-106):
substitute the interpreter for `"python"`, then unconditionally extend with
`-t <lib path>` (`lib_path` is `get_env_lib_path(...)`, the external tool's
private package directory, passed in here as a value). -/
def tox_package_install_command (interpreter lib_path : String)
    (install_command : List String) : List String :=
  rewritePython interpreter install_command ++ ["-t", lib_path]

/-- Hook `tox_package` (plugin3.py lines 95-107): clones the pdm files, then — when
the session has no `package` attribute yet (`sessionPkg = none`) — evaluates
`session.package, session.dist = get_package(session, venv)`, which raises
`TypeError` when `get_package` returns `None`; finally rewrites the install
command.  Result on success: (session package/dist pair, rewritten install
command). -/
def tox_package_hook (cfg : Config) (venv : Venv) (st : ResolverState)
    (sessionPkg : Option (String × String)) (lib_path : String)
    (install_command : List String) (globResults : List String) :
    Except PyError ((String × String) × List String) :=
  match sessionPkg with
  | some pd => .ok (pd, tox_package_install_command venv.interpreter lib_path install_command)
  | none =>
      match (get_package cfg venv st globResults).1 with
      | .error e => .error e
      | .ok v =>
          match tuple_unpack2 v with
          | .error e => .error e
          | .ok pd =>
              .ok (pd, tox_package_install_command venv.interpreter lib_path install_command)

/- ------------------------------------------------------------------ -/
/- tox_testenv_install_deps (plugin3.py lines 110-146)                 -/
/- ------------------------------------------------------------------ -/

/-- The `["--group", g]` flags, one pair per group, in order (the
`for group in groups: args.extend(["--group", group])` loop at
plugin3.py lines 120-121). -/
def groupFlags : List String → List String
  | [] => []
  | g :: rest => "--group" :: g :: groupFlags rest

/-- The `pdm install` argument vector built by `tox_testenv_install_deps`
(plugin3.py lines 115-122), given the already-normalised `groups` list:
base command, then either nothing (when `"default" ∈ groups`, which also
removes the first `"default"` from the list, Python `list.remove`) or
`--no-default` (when `skip_install`), then one `--group` pair per remaining
group, then `--no-self`. -/
def install_args (pdm envPath : String) (skip_install : Bool)
    (groups : List String) : List String :=
  [pdm, "install", "-p", envPath] ++
    (if "default" ∈ groups then []
     else if skip_install then ["--no-default"] else []) ++
    groupFlags (if "default" ∈ groups then groups.erase "default" else groups) ++
    ["--no-self"]

/-- The `pdm install` command `tox_testenv_install_deps` executes
(plugin3.py lines 112-128): `some args` when the guard
`not skip_install or groups` holds, otherwise no command is constructed. -/
def tox_testenv_install_deps_cmd (pdm envPath : String) (skip_install : Bool)
    (cfgGroups : Option (List String)) : Option (List String) :=
  let groups := groupsOrEmpty cfgGroups
  if skip_install = false ∨ groups ≠ [] then
    some (install_args pdm envPath skip_install groups)
  else none

/-- The value of `venv.envconfig.groups` after `tox_testenv_install_deps`
returns (plugin3.py lines 112-117): the local `groups` aliases
`venv.envconfig.groups` whenever the latter is a non-empty list (`or []`
only substitutes a fresh list for falsy values), so `groups.remove("default")`
writes through to the stored configuration, deleting the first `"default"`. -/
def tox_testenv_install_deps_groups (skip_install : Bool)
    (cfgGroups : Option (List String)) : Option (List String) :=
  let groups := groupsOrEmpty cfgGroups
  if skip_install = false ∨ groups ≠ [] then
    if "default" ∈ groups then
      -- "default" ∈ groups forces cfgGroups = some gs with gs non-empty,
      -- hence the alias: the erase is visible in the stored configuration.
      match cfgGroups with
      | some gs => some (gs.erase "default")
      | none => none
    else cfgGroups
  else cfgGroups

/-- Platform-conditional scripts directory name
(plugin3.py lines 138-140): `"Scripts" if os.name == "nt" else "bin"`. -/
def scriptsDirName (isWindowsNT : Bool) : String :=
  if isWindowsNT then "Scripts" else "bin"

/-- The `shutil.move` loop body (plugin3.py lines 143-145): move the listed
items out of `bin_dir` one at a time into the scripts directory.  State:
(entries still in `bin`, entries now in `scripts`). -/
def moveAll : List String → List String → List String × List String
  | [], scripts => ([], scripts)
  | item :: rest, scripts => moveAll rest (scripts ++ [item])

/-- The script-relocation step at the end of `tox_testenv_install_deps`
(plugin3.py lines 142-145).  `bin = none` models `os.path.exists(bin_dir)`
false (no such directory; the whole step is skipped); `bin = some items`
models the directory existing with `os.listdir` returning `items`. -/
def relocateScripts (bin : Option (List String)) (scripts : List String) :
    Option (List String) × List String :=
  match bin with
  | none => (none, scripts)
  | some items =>
      let (remaining, scripts') := moveAll items scripts
      (some remaining, scripts')

/- ------------------------------------------------------------------ -/
/- tox_runenvreport (plugin3.py lines 162-170)                         -/
/- ------------------------------------------------------------------ -/

/-- The command-list rewrite of `tox_runenvreport` (plugin3.py lines 164-170):
substitute the interpreter for `"python"`, then unconditionally extend with
`--path <lib path>`. -/
def tox_runenvreport_command (interpreter lib_path : String)
    (list_dependencies_command : List String) : List String :=
  rewritePython interpreter list_dependencies_command ++ ["--path", lib_path]

/- ------------------------------------------------------------------ -/
/- Helpers for reasoning about argument vectors                        -/
/- ------------------------------------------------------------------ -/

/-- Whether the adjacent pair `a, b` occurs in the token list. -/
def containsPair (a b : String) : List String → Bool
  | [] => false
  | [_] => false
  | x :: y :: rest => (x == a && y == b) || containsPair a b (y :: rest)

/- ------------------------------------------------------------------ -/
/- Helper lemmas                                                       -/
/- ------------------------------------------------------------------ -/

lemma containsPair_cons_of (a b x : String) (l : List String)
    (h : containsPair a b l = true) : containsPair a b (x :: l) = true := by
  cases l with
  | nil => simp [containsPair] at h
  | cons y r => simp [containsPair, h]

lemma containsPair_append_left (a b : String) (pre l : List String)
    (h : containsPair a b l = true) : containsPair a b (pre ++ l) = true := by
  induction pre with
  | nil => simpa
  | cons x rest ih => exact containsPair_cons_of a b x _ ih

lemma containsPair_groupFlags_mem (g : String) (gs : List String)
    (hmem : g ∈ gs) (tail : List String) :
    containsPair "--group" g (groupFlags gs ++ tail) = true := by
  induction gs with
  | nil => simp at hmem
  | cons g' rest ih =>
      rcases List.mem_cons.1 hmem with h | h
      · subst h
        simp [groupFlags, containsPair]
      · exact containsPair_cons_of _ _ _ _ (containsPair_cons_of _ _ _ _ (ih h))

lemma containsPair_default_cons (gs : List String) (h : "default" ∉ gs) :
    ∀ x, containsPair "--group" "default"
      (x :: (groupFlags gs ++ ["--no-self"])) = false := by
  induction gs with
  | nil =>
      intro x
      simp [groupFlags, containsPair]
  | cons g rest ih =>
      intro x
      have hg : g ≠ "default" := fun hgd => h (by simp [hgd])
      have hrest : "default" ∉ rest := fun hm => h (List.mem_cons_of_mem _ hm)
      simp only [groupFlags, List.cons_append, containsPair]
      simp [hg, ih hrest g]

lemma containsPair_default_groupFlags (gs : List String) (h : "default" ∉ gs) :
    containsPair "--group" "default" (groupFlags gs ++ ["--no-self"]) = false := by
  cases gs with
  | nil => simp [groupFlags, containsPair]
  | cons g rest =>
      have hg : g ≠ "default" := fun hgd => h (by simp [hgd])
      have hrest : "default" ∉ rest := fun hm => h (List.mem_cons_of_mem _ hm)
      simp only [groupFlags, List.cons_append, containsPair]
      simp [hg, containsPair_default_cons rest hrest g]

lemma containsPair_default_install_args (pdm envPath : String)
    (gs : List String) (h : "default" ∉ gs) :
    containsPair "--group" "default"
      ([pdm, "install", "-p", envPath] ++ groupFlags gs ++ ["--no-self"]) = false := by
  have base : containsPair "--group" "default"
      (envPath :: (groupFlags gs ++ ["--no-self"])) = false :=
    containsPair_default_cons gs h envPath
  cases gs with
  | nil => simp_all [groupFlags, containsPair]
  | cons g rest => simp_all [groupFlags, containsPair]

lemma mem_groupFlags (x : String) (gs : List String) :
    x ∈ groupFlags gs ↔ (x = "--group" ∧ gs ≠ []) ∨ x ∈ gs := by
  induction gs with
  | nil => simp [groupFlags]
  | cons g rest ih =>
      simp only [groupFlags, List.mem_cons, ih]
      constructor
      · rintro (h | h | (⟨h, -⟩ | h)) <;> simp [h]
      · rintro (⟨h, -⟩ | h | h) <;> simp [h]

lemma count_groupFlags (g : String) (gs : List String) (hg : g ≠ "--group") :
    (groupFlags gs).count g = gs.count g := by
  induction gs with
  | nil => rfl
  | cons g' rest ih =>
      show List.count g ("--group" :: g' :: groupFlags rest) = _
      rw [List.count_cons, List.count_cons, List.count_cons, ih]
      have : ("--group" == g) = false := by
        simp [Ne.symm hg]
      simp [this]

lemma count_rewritePython (interpreter t : String) (cmd : List String)
    (ht : t ≠ "python") (hi : interpreter ≠ t) :
    (rewritePython interpreter cmd).count t = cmd.count t := by
  unfold rewritePython
  induction cmd with
  | nil => rfl
  | cons x l ih =>
      rw [List.map_cons, List.count_cons, List.count_cons, ih]
      by_cases hx : x = "python"
      · subst hx
        have h1 : (interpreter == t) = false := by simp [hi]
        have h2 : ("python" == t) = false := by simp [Ne.symm ht]
        simp [h1, h2]
      · simp [hx]

lemma count_rewrite_extend_iter (i lib flag : String) (cmd : List String)
    (n : ℕ) (hflag : flag ≠ "python") (hi : i ≠ flag) (hl : lib ≠ flag) :
    ((fun c => rewritePython i c ++ [flag, lib])^[n] cmd).count flag =
      cmd.count flag + n := by
  induction n with
  | zero => simp
  | succ n ih =>
      rw [Function.iterate_succ_apply']
      simp only [List.count_append]
      rw [count_rewritePython i flag _ hflag hi, ih]
      have h2 : (lib == flag) = false := by simp [hl]
      simp [List.count_cons, h2]
      ring

lemma moveAll_spec (items scripts : List String) :
    moveAll items scripts = ([], scripts ++ items) := by
  induction items generalizing scripts with
  | nil => simp [moveAll]
  | cons x rest ih => simp [moveAll, ih]

lemma notMem_install_args_shape (pdm envPath t : String) (G : List String)
    (h1 : t ≠ pdm) (h2 : t ≠ "install") (h3 : t ≠ "-p") (h4 : t ≠ envPath)
    (h5 : t ≠ "--group") (h6 : t ∉ G) (h7 : t ≠ "--no-self") :
    t ∉ [pdm, "install", "-p", envPath] ++ groupFlags G ++ ["--no-self"] := by
  intro hmem
  rcases List.mem_append.1 hmem with h | h
  · rcases List.mem_append.1 h with h | h
    · simp only [List.mem_cons, List.not_mem_nil, or_false] at h
      rcases h with h | h | h | h
      · exact h1 h
      · exact h2 h
      · exact h3 h
      · exact h4 h
    · rcases (mem_groupFlags t G).1 h with ⟨h, -⟩ | h
      · exact h5 h
      · exact h6 h
  · simp only [List.mem_singleton] at h
    exact h7 h

lemma count_install_args_shape (pdm envPath g : String) (G : List String)
    (h1 : g ≠ pdm) (h2 : g ≠ "install") (h3 : g ≠ "-p") (h4 : g ≠ envPath)
    (h5 : g ≠ "--group") (h7 : g ≠ "--no-self") :
    ([pdm, "install", "-p", envPath] ++ groupFlags G ++ ["--no-self"]).count g =
      G.count g := by
  rw [List.count_append, List.count_append, count_groupFlags g G h5]
  simp [List.count_cons, beq_iff_eq, Ne.symm h1, Ne.symm h2, Ne.symm h3,
    Ne.symm h4, Ne.symm h7]

/- ------------------------------------------------------------------ -/
/- Claims                                                              -/
/- ------------------------------------------------------------------ -/

/-- C1, counterexample: with skip-install true and an empty groups list,
`tox_testenv_install_deps` constructs no install command at all (the guard
`not skip_install or groups` fails), so in particular no constructed command
contains `--no-default`. -/
theorem claim_C1_counterexample :
    ¬ ∃ cmd, tox_testenv_install_deps_cmd "pdm" "/testenv" true (some []) =
        some cmd ∧ "--no-default" ∈ cmd := by
  rintro ⟨cmd, h, -⟩
  have e : tox_testenv_install_deps_cmd "pdm" "/testenv" true (some []) =
      none := rfl
  rw [e] at h
  exact Option.noConfusion h

/-- C1, amended: for every environment configuration with skip-install true
and an empty (or absent) groups list, `tox_testenv_install_deps` skips the
external-tool install invocation entirely — no install command is
constructed (so no `--no-default` and no `--group` flags are ever issued in
this case because no command exists at all). -/
theorem claim_C1 (pdm envPath : String) (cfgGroups : Option (List String))
    (h : groupsOrEmpty cfgGroups = []) :
    tox_testenv_install_deps_cmd pdm envPath true cfgGroups = none := by
  simp [tox_testenv_install_deps_cmd, h]

/-- C1, witness: concrete instance with an absent groups attribute. -/
theorem claim_C1_witness :
    tox_testenv_install_deps_cmd "pdm" "/testenv" true none = none :=
  claim_C1 "pdm" "/testenv" none rfl

/-- C2: with `skipsdist` true, `get_package` returns no artifact (`none`),
its only effect is the informational message `"skipping sdist step"` (a
reported skip, not a raised error: the result is `Except.ok`), and its effect
trace contains no filesystem write. -/
theorem claim_C2 (cfg : Config) (venv : Venv) (st : ResolverState)
    (globResults : List String) (h : cfg.skipsdist = true) :
    get_package cfg venv st globResults =
      (Except.ok none, [Effect.info "skipping sdist step"]) ∧
    (get_package cfg venv st globResults).2.filter Effect.isFsWrite = [] := by
  have e : get_package cfg venv st globResults =
      (Except.ok none, [Effect.info "skipping sdist step"]) := by
    unfold get_package
    rw [h]
    simp
  exact ⟨e, by rw [e]; rfl⟩

/-- C2, witness: concrete instance. -/
theorem claim_C2_witness :
    get_package ⟨true, "/wd", "ibe", "/proj", "pdm"⟩
        ⟨"/testenv", "/testenv/bin/python", none, false⟩
        ⟨fun _ => "/usr/bin/python3"⟩ [] =
      (Except.ok none, [Effect.info "skipping sdist step"]) ∧
    (get_package ⟨true, "/wd", "ibe", "/proj", "pdm"⟩
        ⟨"/testenv", "/testenv/bin/python", none, false⟩
        ⟨fun _ => "/usr/bin/python3"⟩ []).2.filter Effect.isFsWrite = [] :=
  claim_C2 _ _ _ _ rfl

/-- C3, counterexample: the resolver is NOT restored after
`tox_testenv_create` returns — with a prior resolver sending every command to
`"/usr/bin/python3"`, after the hook the stored class-level resolver maps
`"python"` to the environment interpreter, not to what the prior resolver
returned, so the resolver's behaviour after the hook differs from its prior
behaviour. -/
theorem claim_C3_counterexample :
    (tox_testenv_create ⟨false, "/wd", "ibe", "/proj", "pdm"⟩
        ⟨"/testenv", "/testenv/bin/python", none, false⟩
        ⟨fun _ => "/usr/bin/python3"⟩).1.getcommandpath "python" ≠
      (fun _ : String => "/usr/bin/python3") "python" := by
  decide

/-- C3, amended: `tox_testenv_create` substitutes the host's command-path
resolver permanently, not temporarily: after the hook returns the stored
resolver maps `"python"` to the environment's concrete interpreter and
delegates every other command name to the prior resolver; nothing restores
the prior resolver. -/
theorem claim_C3 (cfg : Config) (venv : Venv) (st : ResolverState) :
    (tox_testenv_create cfg venv st).1.getcommandpath "python" =
      venv.interpreter ∧
    ∀ cmd, cmd ≠ "python" →
      (tox_testenv_create cfg venv st).1.getcommandpath cmd =
        st.getcommandpath cmd := by
  refine ⟨rfl, fun cmd hc => ?_⟩
  simp [tox_testenv_create, patch_getcommandpath, hc]

/-- C3, witness: concrete instance, checked at `"python"` and `"pip"`. -/
theorem claim_C3_witness :
    (tox_testenv_create ⟨false, "/wd", "ibe", "/proj", "pdm"⟩
        ⟨"/testenv", "/testenv/bin/python", none, false⟩
        ⟨fun _ => "/usr/bin/python3"⟩).1.getcommandpath "python" =
      "/testenv/bin/python" ∧
    (tox_testenv_create ⟨false, "/wd", "ibe", "/proj", "pdm"⟩
        ⟨"/testenv", "/testenv/bin/python", none, false⟩
        ⟨fun _ => "/usr/bin/python3"⟩).1.getcommandpath "pip" =
      "/usr/bin/python3" :=
  ⟨(claim_C3 ⟨false, "/wd", "ibe", "/proj", "pdm"⟩
      ⟨"/testenv", "/testenv/bin/python", none, false⟩
      ⟨fun _ => "/usr/bin/python3"⟩).1,
   (claim_C3 ⟨false, "/wd", "ibe", "/proj", "pdm"⟩
      ⟨"/testenv", "/testenv/bin/python", none, false⟩
      ⟨fun _ => "/usr/bin/python3"⟩).2 "pip" (by decide)⟩

/-- C6: after the build subcommand, `acquire_package` returns the first file
of the `*.tar.gz` glob; when the glob is empty it propagates
`StopIteration` (an uncaught lookup error, not a designed error value), and
the same error propagates unmodified through `get_package` when the sdist
build is not skipped. -/
theorem claim_C6 (cfg : Config) (venv : Venv) (st : ResolverState)
    (globResults : List String) (hsd : cfg.skipsdist = false) :
    (∀ p rest, globResults = p :: rest →
      (acquire_package cfg venv st globResults).1 = Except.ok p) ∧
    (globResults = [] →
      (acquire_package cfg venv st globResults).1 =
        Except.error PyError.stopIteration ∧
      (get_package cfg venv st globResults).1 =
        Except.error PyError.stopIteration) := by
  constructor
  · rintro p rest rfl
    rfl
  · rintro rfl
    refine ⟨rfl, ?_⟩
    unfold get_package
    rw [hsd]
    simp [acquire_package]

/-- C6, witness: one non-empty and one empty glob, concretely. -/
theorem claim_C6_witness :
    (acquire_package ⟨false, "/wd", "ibe", "/proj", "pdm"⟩
        ⟨"/testenv", "/py", none, false⟩ ⟨fun _ => "x"⟩
        ["/wd/ibe/pkg-1.0.tar.gz"]).1 = Except.ok "/wd/ibe/pkg-1.0.tar.gz" ∧
    (get_package ⟨false, "/wd", "ibe", "/proj", "pdm"⟩
        ⟨"/testenv", "/py", none, false⟩ ⟨fun _ => "x"⟩ []).1 =
      Except.error PyError.stopIteration :=
  ⟨(claim_C6 ⟨false, "/wd", "ibe", "/proj", "pdm"⟩
      ⟨"/testenv", "/py", none, false⟩ ⟨fun _ => "x"⟩
      ["/wd/ibe/pkg-1.0.tar.gz"] rfl).1 "/wd/ibe/pkg-1.0.tar.gz" [] rfl,
   ((claim_C6 ⟨false, "/wd", "ibe", "/proj", "pdm"⟩
      ⟨"/testenv", "/py", none, false⟩ ⟨fun _ => "x"⟩ [] rfl).2 rfl).2⟩

/-- C7: the script-relocation step moves every entry out of the external
tool's `bin` subdirectory into the scripts directory, leaving `bin` empty;
when the `bin` subdirectory does not exist the step is a silent no-op; and
the destination directory name is `"Scripts"` on Windows (`os.name == "nt"`)
and `"bin"` otherwise. -/
theorem claim_C7 (items scripts : List String) :
    relocateScripts (some items) scripts = (some [], scripts ++ items) ∧
    relocateScripts none scripts = (none, scripts) ∧
    scriptsDirName true = "Scripts" ∧ scriptsDirName false = "bin" := by
  refine ⟨?_, rfl, rfl, rfl⟩
  simp [relocateScripts, moveAll_spec]

/-- C8: with `skipsdist` true and no `package` attribute on the session yet,
`tox_package` raises `TypeError`: `get_package` returns `None` and the hook
unpacks it into `session.package, session.dist`. -/
theorem claim_C8 (cfg : Config) (venv : Venv) (st : ResolverState)
    (lib_path : String) (install_command globResults : List String)
    (hsd : cfg.skipsdist = true) :
    tox_package_hook cfg venv st none lib_path install_command globResults =
      Except.error PyError.typeError := by
  have e : (get_package cfg venv st globResults).1 = Except.ok none := by
    unfold get_package
    rw [hsd]
    rfl
  unfold tox_package_hook
  rw [e]
  rfl

/-- C4, counterexample: Python `list.remove` deletes only the FIRST
occurrence of `"default"`, so with groups `["default", "default", "foo"]`
(which contains `"default"` alongside another explicit group name) the
constructed command still contains the pair `--group default`. -/
theorem claim_C4_counterexample :
    tox_testenv_install_deps_cmd "pdm" "/testenv" false
        (some ["default", "default", "foo"]) =
      some ["pdm", "install", "-p", "/testenv", "--group", "default",
        "--group", "foo", "--no-self"] ∧
    containsPair "--group" "default"
      ["pdm", "install", "-p", "/testenv", "--group", "default",
        "--group", "foo", "--no-self"] = true :=
  ⟨rfl, rfl⟩

/-- C4, amended: for every groups list containing the token `"default"`
EXACTLY ONCE alongside other explicit group names, the hook removes
`"default"` before constructing the install command, so the argument vector
never contains the adjacent pair `--group default`, while every other group
name in the list appears as a `--group` flag. -/
theorem claim_C4 (pdm envPath : String) (skip_install : Bool)
    (groups : List String) (hcount : groups.count "default" = 1) :
    tox_testenv_install_deps_cmd pdm envPath skip_install (some groups) =
      some (install_args pdm envPath skip_install groups) ∧
    containsPair "--group" "default"
      (install_args pdm envPath skip_install groups) = false ∧
    ∀ g, g ∈ groups → g ≠ "default" →
      containsPair "--group" g
        (install_args pdm envPath skip_install groups) = true := by
  have hmem : "default" ∈ groups := by
    rw [← List.count_pos_iff]
    omega
  have hne : groups ≠ [] := List.ne_nil_of_mem hmem
  have hnd : "default" ∉ groups.erase "default" := by
    rw [← List.count_eq_zero, List.count_erase_self, hcount]
  have hargs : install_args pdm envPath skip_install groups =
      [pdm, "install", "-p", envPath] ++
        groupFlags (groups.erase "default") ++ ["--no-self"] := by
    simp [install_args, hmem]
  refine ⟨?_, ?_, ?_⟩
  · simp [tox_testenv_install_deps_cmd, groupsOrEmpty, hne]
  · rw [hargs]
    exact containsPair_default_install_args pdm envPath _ hnd
  · intro g hg hgne
    have hg' : g ∈ groups.erase "default" := (List.mem_erase_of_ne hgne).2 hg
    rw [hargs, List.append_assoc]
    exact containsPair_append_left _ _ _ _
      (containsPair_groupFlags_mem g _ hg' ["--no-self"])

/-- C4, witness: groups `["default", "docs"]`, checked at group `"docs"`. -/
theorem claim_C4_witness :
    tox_testenv_install_deps_cmd "pdm" "/testenv" false
        (some ["default", "docs"]) =
      some (install_args "pdm" "/testenv" false ["default", "docs"]) ∧
    containsPair "--group" "default"
      (install_args "pdm" "/testenv" false ["default", "docs"]) = false ∧
    containsPair "--group" "docs"
      (install_args "pdm" "/testenv" false ["default", "docs"]) = true :=
  ⟨(claim_C4 "pdm" "/testenv" false ["default", "docs"] (by decide)).1,
   (claim_C4 "pdm" "/testenv" false ["default", "docs"] (by decide)).2.1,
   (claim_C4 "pdm" "/testenv" false ["default", "docs"] (by decide)).2.2
     "docs" (by decide) (by decide)⟩

/-- C5, counterexample: with skip-install false and groups
`["default", "default"]`, only the first `"default"` is removed, so the
constructed install command does contain the token `"default"` (as a
`--group default` flag). -/
theorem claim_C5_counterexample :
    tox_testenv_install_deps_cmd "pdm" "/testenv" false
        (some ["default", "default"]) =
      some ["pdm", "install", "-p", "/testenv", "--group", "default",
        "--no-self"] ∧
    "default" ∈ ["pdm", "install", "-p", "/testenv", "--group", "default",
      "--no-self"] :=
  ⟨rfl, by decide⟩

/-- C5, amended: with skip-install false and a groups list containing
`"default"` at most once, the constructed install command contains neither
`--no-default` nor the token `"default"` (provided the tool path, the
environment path and the group names do not themselves collide with those
tokens), and contains one `--group` flag per occurrence of each requested
group `g` other than `"default"` (token count of `g` in the command equals
its count in the groups list, for `g` distinct from the fixed tokens). -/
theorem claim_C5 (pdm envPath : String) (groups : List String) (g : String)
    (hcount : groups.count "default" ≤ 1)
    (hp1 : pdm ≠ "default") (he1 : envPath ≠ "default")
    (hp2 : pdm ≠ "--no-default") (he2 : envPath ≠ "--no-default")
    (hgrp : "--no-default" ∉ groups)
    (hg1 : g ≠ "default") (hg2 : g ≠ pdm) (hg3 : g ≠ envPath)
    (hg4 : g ≠ "install") (hg5 : g ≠ "-p") (hg6 : g ≠ "--group")
    (hg7 : g ≠ "--no-self") :
    tox_testenv_install_deps_cmd pdm envPath false (some groups) =
      some (install_args pdm envPath false groups) ∧
    "--no-default" ∉ install_args pdm envPath false groups ∧
    "default" ∉ install_args pdm envPath false groups ∧
    (install_args pdm envPath false groups).count g = groups.count g := by
  by_cases hdef : "default" ∈ groups
  · have hcnt1 : groups.count "default" = 1 := by
      have := List.count_pos_iff.2 hdef
      omega
    have hndG : "default" ∉ groups.erase "default" := by
      rw [← List.count_eq_zero, List.count_erase_self, hcnt1]
    have hargs : install_args pdm envPath false groups =
        [pdm, "install", "-p", envPath] ++
          groupFlags (groups.erase "default") ++ ["--no-self"] := by
      simp [install_args, hdef]
    refine ⟨by simp [tox_testenv_install_deps_cmd, groupsOrEmpty], ?_, ?_, ?_⟩
    · rw [hargs]
      exact notMem_install_args_shape pdm envPath _ _ (Ne.symm hp2) (by decide)
        (by decide) (Ne.symm he2)
        (by decide) (fun hm => hgrp (List.mem_of_mem_erase hm)) (by decide)
    · rw [hargs]
      exact notMem_install_args_shape pdm envPath _ _ (Ne.symm hp1) (by decide)
        (by decide) (Ne.symm he1) (by decide) hndG (by decide)
    · rw [hargs, count_install_args_shape pdm envPath g _ hg2 hg4 hg5 hg3
        hg6 hg7]
      exact List.count_erase_of_ne hg1 groups
  · have hargs : install_args pdm envPath false groups =
        [pdm, "install", "-p", envPath] ++ groupFlags groups ++
          ["--no-self"] := by
      simp [install_args, hdef]
    refine ⟨by simp [tox_testenv_install_deps_cmd, groupsOrEmpty], ?_, ?_, ?_⟩
    · rw [hargs]
      exact notMem_install_args_shape pdm envPath _ _ (Ne.symm hp2) (by decide)
        (by decide) (Ne.symm he2) (by decide) hgrp (by decide)
    · rw [hargs]
      exact notMem_install_args_shape pdm envPath _ _ (Ne.symm hp1) (by decide)
        (by decide) (Ne.symm he1) (by decide) hdef (by decide)
    · rw [hargs, count_install_args_shape pdm envPath g _ hg2 hg4 hg5 hg3
        hg6 hg7]

/-- C5, witness: groups `["default", "lint"]`, checked at group `"lint"`. -/
theorem claim_C5_witness :
    tox_testenv_install_deps_cmd "pdm" "/testenv" false
        (some ["default", "lint"]) =
      some (install_args "pdm" "/testenv" false ["default", "lint"]) ∧
    "--no-default" ∉ install_args "pdm" "/testenv" false ["default", "lint"] ∧
    "default" ∉ install_args "pdm" "/testenv" false ["default", "lint"] ∧
    (install_args "pdm" "/testenv" false ["default", "lint"]).count "lint" =
      (["default", "lint"] : List String).count "lint" :=
  claim_C5 "pdm" "/testenv" ["default", "lint"] "lint" (by decide) (by decide)
    (by decide) (by decide) (by decide) (by decide) (by decide) (by decide)
    (by decide) (by decide) (by decide) (by decide) (by decide)

/-- C8, witness: concrete instance. -/
theorem claim_C8_witness :
    tox_package_hook ⟨true, "/wd", "ibe", "/proj", "pdm"⟩
        ⟨"/testenv", "/py", none, false⟩ ⟨fun _ => "x"⟩ none "/lib"
        ["python", "-m", "pip", "install"] [] =
      Except.error PyError.typeError :=
  claim_C8 _ _ _ _ _ _ rfl

/-- C9, counterexample: with the stored groups list `["default", "default"]`,
the hook's `groups.remove("default")` deletes only the first occurrence, so a
second invocation still observes a groups list containing `"default"` — the
claim's "a second invocation observes a groups list without `default`" fails.
-/
theorem claim_C9_counterexample :
    tox_testenv_install_deps_groups false (some ["default", "default"]) =
      some ["default"] ∧
    "default" ∈ (["default"] : List String) :=
  ⟨rfl, by decide⟩

/-- C9, amended: when the configured groups list is non-empty and contains
`"default"`, the hook mutates the stored configuration in place (the local
`groups` aliases `venv.envconfig.groups`): after the hook,
`venv.envconfig.groups` equals the original list with its FIRST `"default"`
removed; when `"default"` occurred exactly once, a second invocation observes
a groups list without `"default"`. -/
theorem claim_C9 (skip_install : Bool) (gs : List String)
    (hmem : "default" ∈ gs) :
    tox_testenv_install_deps_groups skip_install (some gs) =
      some (gs.erase "default") ∧
    (gs.count "default" = 1 → "default" ∉ gs.erase "default") := by
  have hne : gs ≠ [] := List.ne_nil_of_mem hmem
  constructor
  · simp [tox_testenv_install_deps_groups, groupsOrEmpty, hne, hmem]
  · intro h1
    rw [← List.count_eq_zero, List.count_erase_self, h1]

/-- C9, witness: stored groups `["default", "unit"]`. -/
theorem claim_C9_witness :
    tox_testenv_install_deps_groups true (some ["default", "unit"]) =
      some ((["default", "unit"] : List String).erase "default") ∧
    "default" ∉ (["default", "unit"] : List String).erase "default" :=
  ⟨(claim_C9 true ["default", "unit"] (by decide)).1,
   (claim_C9 true ["default", "unit"] (by decide)).2 (by decide)⟩

/-- C10: the command rewrites of `tox_package` and `tox_runenvreport` are not
idempotent — every invocation unconditionally appends the `-t <lib path>`
(resp. `--path <lib path>`) pair, so after `n` invocations on a command list
that starts with no such flag, the list contains exactly `n` occurrences of
the `-t` (resp. `--path`) flag (provided the interpreter and lib path do not
themselves equal the flag token). -/
theorem claim_C10 (interpreter libT libR : String) (cmdT cmdR : List String)
    (n : ℕ)
    (h1 : interpreter ≠ "-t") (h2 : libT ≠ "-t") (h3 : cmdT.count "-t" = 0)
    (h4 : interpreter ≠ "--path") (h5 : libR ≠ "--path")
    (h6 : cmdR.count "--path" = 0) :
    ((tox_package_install_command interpreter libT)^[n] cmdT).count "-t" = n ∧
    ((tox_runenvreport_command interpreter libR)^[n] cmdR).count "--path" =
      n := by
  have e1 : tox_package_install_command interpreter libT =
      fun c => rewritePython interpreter c ++ ["-t", libT] := rfl
  have e2 : tox_runenvreport_command interpreter libR =
      fun c => rewritePython interpreter c ++ ["--path", libR] := rfl
  constructor
  · rw [e1, count_rewrite_extend_iter interpreter libT "-t" cmdT n (by decide)
      h1 h2, h3]
    omega
  · rw [e2, count_rewrite_extend_iter interpreter libR "--path" cmdR n
      (by decide) h4 h5, h6]
    omega

/-- C10, witness: two invocations on concrete pip commands yield two copies
of each appended flag. -/
theorem claim_C10_witness :
    ((tox_package_install_command "/testenv/bin/python" "/lib")^[2]
        ["python", "-m", "pip", "install"]).count "-t" = 2 ∧
    ((tox_runenvreport_command "/testenv/bin/python" "/lib")^[2]
        ["python", "-m", "pip", "freeze"]).count "--path" = 2 :=
  claim_C10 "/testenv/bin/python" "/lib" "/lib"
    ["python", "-m", "pip", "install"] ["python", "-m", "pip", "freeze"] 2
    (by decide) (by decide) (by decide) (by decide) (by decide) (by decide)

end ToxPdm
